/-
Verification of the WebSocket relay server (pumpv5).

Shallow embedding of the relay's connection-routing and message-dispatch
logic, translated from `src/server.js` (the main, lenient variant) and
`src/backup/Server/server.js` (the backup, strict variant).

Modelling conventions:
  * A connection (socket) is identified by a `Nat`; the server state keeps,
    per socket id, the `isEsp32` flag (the `ws.isEsp32 = true` expando set by
    the `esp32-identify` handler and never reset anywhere in the source) and
    the transport `readyState`.
  * `clients` is the `wss.clients` set of registered connections (in list
    form, preserving the iteration order used by `forEach`).
  * `esp32Socket` is the module-level `let esp32Socket = null` slot
    (DeviceSlot), holding the id of the socket object it references.
  * The MongoDB collection is a `List LogEntry`; `dbConnected` models
    `mongoose.connection.readyState === 1`; a per-message `dbFail` flag
    models the awaited store operation throwing (the `catch` paths).
  * Date strings are modelled as UTC day indices (days since the epoch);
    `new Date(d)` on an ISO date string is UTC midnight of that day, and the
    `end.setDate(end.getDate() + 1)` idiom adds one day (server clock in
    UTC, as the source's comments `// Force start of day UTC` assume).
  * Handling one inbound frame is a pure function from state and frame to
    the new state and the list of `send` outputs (receiver id, message).
    A frame that fails `JSON.parse` is the `none` frame.
-/
import Mathlib

namespace Pump

/-- WebSocket transport states; `OPEN` is `WebSocket.OPEN`. -/
inductive ReadyState where
  | CONNECTING : ReadyState
  | OPEN : ReadyState
  | CLOSING : ReadyState
  | CLOSED : ReadyState
deriving DecidableEq, Repr

/-- One document of the `MotorLog` Mongo collection (`motorLogSchema`):
`macAddress`, `onTime`, `offTime`, `duration` are strings, `serverTime` is the
server-assigned ingestion timestamp (ms since epoch, `Date.now` default). -/
structure LogEntry where
  macAddress : String
  onTime : String
  offTime : String
  duration : String
  serverTime : Nat
deriving DecidableEq, Repr

/-- The `{ $gte: ..., $lt: ... }` object built under `query.serverTime`. -/
structure TimeRange where
  gte : Option Nat
  lt : Option Nat
deriving DecidableEq, Repr

/-- Milliseconds at UTC midnight of day index `d` (`new Date` of the ISO date). -/
def dayStartMs (d : Nat) : Nat := d * 86400000

/-- The Mongo query built by the `getLogs` handlers:
`{}` when neither date is given, otherwise a `serverTime` range with
`$gte = new Date(startDate)` and `$lt = new Date(endDate) + 1 day`. -/
def buildGetLogsQuery (startDate endDate : Option Nat) : Option TimeRange :=
  match startDate, endDate with
  | none, none => none
  | _, _ =>
      some { gte := startDate.map dayStartMs
             lt := endDate.map (fun d => dayStartMs (d + 1)) }

/-- Whether a stored entry matches a (possibly absent) `serverTime` range:
Mongo `$gte`/`$lt` comparison on the timestamp. -/
def queryMatches (q : Option TimeRange) (e : LogEntry) : Bool :=
  match q with
  | none => true
  | some r =>
      (match r.gte with | none => true | some g => decide (g ≤ e.serverTime)) &&
      (match r.lt with | none => true | some l => decide (e.serverTime < l))

/-- Descending-recency order used by `.sort({ serverTime: -1 })`. -/
def recentFirst (a b : LogEntry) : Prop := b.serverTime ≤ a.serverTime

instance : DecidableRel recentFirst := fun a b => Nat.decLe b.serverTime a.serverTime

instance : IsTotal LogEntry recentFirst :=
  ⟨fun a b => (Nat.le_total b.serverTime a.serverTime).imp id id⟩

instance : IsTrans LogEntry recentFirst :=
  ⟨fun _ _ _ h h' => Nat.le_trans h' h⟩

/-- The query `MotorLog.find(query).sort({ serverTime: -1 }).limit(100)`. -/
def findLogs (store : List LogEntry) (q : Option TimeRange) : List LogEntry :=
  ((store.filter (queryMatches q)).insertionSort recentFirst).take 100

/-- Inbound message envelopes, one constructor per `data.type` the relay
recognises (`other` stands for any unrecognised type). Dates in payloads are
UTC day indices; a `statusUpdate` payload is kept abstract. -/
inductive InMsg where
  | identify : InMsg
  | uploadLog (mac onTime offTime duration : String) : InMsg
  | getLogs (startDate endDate : Option Nat) : InMsg
  | clearLogs (startDate endDate : Option Nat) : InMsg
  | deleteLogs (startDate endDate : Option Nat) : InMsg
  | statusUpdate (payload : String) : InMsg
  | command (command : String) (value : Int) : InMsg
  | ping : InMsg
  | requestStatus : InMsg
  | other (type : String) : InMsg
deriving DecidableEq, Repr

/-- Messages the relay writes to a socket. `forwardCommand` is the verbatim
forward of a `command` envelope; `forceStatusUpdate` is the synthetic
`{command:"FORCE_STATUS_UPDATE", value:1}` sent on `requestStatus`. -/
inductive OutMsg where
  | error (message : String) : OutMsg
  | logHistory (payload : List LogEntry) : OutMsg
  | statusUpdate (payload : String) : OutMsg
  | pong : OutMsg
  | serverStatus (deviceOnline : Bool) : OutMsg
  | forwardCommand (command : String) (value : Int) : OutMsg
  | forceStatusUpdate : OutMsg
deriving DecidableEq, Repr

/-- The relay's mutable state: registered sockets (`wss.clients`), the
per-socket `isEsp32` flag and transport state, the `esp32Socket` slot, the
Mongo collection, connectivity, and the clock for `Date.now`. -/
structure ServerState where
  clients : List Nat
  isEsp32 : Nat → Bool
  readyState : Nat → ReadyState
  esp32Socket : Option Nat
  store : List LogEntry
  dbConnected : Bool
  now : Nat

/-- The Connection Registry's `get_device()`: the current DeviceSlot occupant. -/
def get_device (s : ServerState) : Option Nat := s.esp32Socket

/-- The message handler of the main `src/server.js`. Here `sender` is the
socket the frame arrived on, `frame = none` is a frame `JSON.parse` rejects,
`dbFail` is whether the store operation awaited in this handler throws.
Returns the state after the handler and the list of sends it performed. -/
def handleMessage (s : ServerState) (sender : Nat) (frame : Option InMsg)
    (dbFail : Bool) : ServerState × List (Nat × OutMsg) :=
  match frame with
  | none => (s, [])
  | some data =>
    match data with
    | .identify =>
        ({ s with esp32Socket := some sender
                  isEsp32 := fun i => if i = sender then true else s.isEsp32 i }, [])
    | .uploadLog mac onT offT dur =>
        if s.dbConnected then
          if dbFail then (s, [])
          else ({ s with store := s.store ++ [⟨mac, onT, offT, dur, s.now⟩] }, [])
        else (s, [])
    | .getLogs sd ed =>
        let q := buildGetLogsQuery sd ed
        if s.dbConnected then
          if dbFail then (s, [])
          else (s, [(sender, .logHistory (findLogs s.store q))])
        else (s, [(sender, .logHistory [])])
    | .clearLogs _ _ =>
        if s.dbConnected then
          if dbFail then (s, [])
          else ({ s with store := [] }, [(sender, .logHistory [])])
        else (s, [])
    | .statusUpdate p =>
        if s.isEsp32 sender then
          (s, s.clients.filterMap (fun c =>
            if s.isEsp32 c = false ∧ s.readyState c = .OPEN
            then some (c, .statusUpdate p) else none))
        else (s, [])
    | .command c v =>
        match s.esp32Socket with
        | some dev =>
            if s.readyState dev = .OPEN then (s, [(dev, .forwardCommand c v)])
            else ({ s with esp32Socket := none },
                  [(sender, .error "Device Disconnected (Socket Closed).")])
        | none => (s, [(sender, .error "Device Offline (No Socket).")])
    | .deleteLogs _ _ => (s, [])
    | .ping => (s, [])
    | .requestStatus => (s, [])
    | .other _ => (s, [])

/-- The `serverTime` match object of the backup `deleteLogs`/`clearLogs`
handler: a range only when BOTH dates are present, else `{}`. -/
def buildDeleteMatch (startDate endDate : Option Nat) : Option TimeRange :=
  match startDate, endDate with
  | some sd, some ed => some { gte := some (dayStartMs sd)
                               lt := some (dayStartMs (ed + 1)) }
  | _, _ => none

/-- The message handler of `src/backup/Server/server.js`
(the strict variant). Differences from the main variant: `getLogs` demands
both dates, store failures on `getLogs`/`deleteLogs` are answered with typed
`error` replies, `deleteLogs`/`clearLogs` take an optional range, and `ping` /
`requestStatus` are handled. -/
def handleMessageBackup (s : ServerState) (sender : Nat) (frame : Option InMsg)
    (dbFail : Bool) : ServerState × List (Nat × OutMsg) :=
  match frame with
  | none => (s, [])
  | some data =>
    match data with
    | .identify =>
        ({ s with esp32Socket := some sender
                  isEsp32 := fun i => if i = sender then true else s.isEsp32 i }, [])
    | .uploadLog mac onT offT dur =>
        if s.dbConnected then
          if dbFail then (s, [])
          else ({ s with store := s.store ++ [⟨mac, onT, offT, dur, s.now⟩] }, [])
        else (s, [])
    | .getLogs sd ed =>
        match sd, ed with
        | some sd', some ed' =>
            let q := buildGetLogsQuery (some sd') (some ed')
            if s.dbConnected then
              if dbFail then
                (s, [(sender, .error "Database Error. Check Server Logs.")])
              else (s, [(sender, .logHistory (findLogs s.store q))])
            else (s, [(sender, .logHistory [])])
        | _, _ => (s, [(sender, .error "Date Range Required")])
    | .deleteLogs sd ed | .clearLogs sd ed =>
        let mtch := buildDeleteMatch sd ed
        if s.dbConnected then
          if dbFail then (s, [(sender, .error "Delete Failed.")])
          else
            let deletedCount := (s.store.filter (queryMatches mtch)).length
            ({ s with store := s.store.filter (fun e => !queryMatches mtch e) },
             (sender, .error ("Deleted " ++ toString deletedCount ++ " logs.")) ::
               (if mtch = none then [(sender, .logHistory [])] else []))
        else (s, [])
    | .statusUpdate p =>
        if s.isEsp32 sender then
          (s, s.clients.filterMap (fun c =>
            if s.isEsp32 c = false ∧ s.readyState c = .OPEN
            then some (c, .statusUpdate p) else none))
        else (s, [])
    | .command c v =>
        match s.esp32Socket with
        | some dev =>
            if s.readyState dev = .OPEN then (s, [(dev, .forwardCommand c v)])
            else ({ s with esp32Socket := none },
                  [(sender, .error "Device Disconnected (Socket Closed).")])
        | none => (s, [(sender, .error "Device Offline (No Socket).")])
    | .ping => (s, [(sender, .pong)])
    | .requestStatus =>
        match s.esp32Socket with
        | some dev =>
            if s.readyState dev = .OPEN then
              (s, [(sender, .serverStatus true), (dev, .forceStatusUpdate)])
            else (s, [(sender, .serverStatus false)])
        | none => (s, [(sender, .serverStatus false)])
    | .other _ => (s, [])

/-- The connection-close event (identical in both variants): the transport
library marks the socket closed and drops it from `wss.clients`; the
the close handler then sets `esp32Socket = null` when the CLOSING
socket carries the `isEsp32` flag. -/
def handleClose (s : ServerState) (who : Nat) : ServerState :=
  let s1 := { s with clients := s.clients.erase who
                     readyState := fun i => if i = who then .CLOSED else s.readyState i }
  if s1.isEsp32 who then { s1 with esp32Socket := none } else s1

/-! ### Concrete states used by witnesses and counterexamples -/

/-- A small concrete state: two open dashboard connections, no device ever
identified, store connected and empty. -/
def demoState : ServerState :=
  { clients := [0, 1]
    isEsp32 := fun _ => false
    readyState := fun _ => ReadyState.OPEN
    esp32Socket := some 0
    store := []
    dbConnected := true
    now := 0 }

/-- Variant of `demoState` with an empty DeviceSlot (no device ever identified). -/
def noDeviceState : ServerState :=
  { demoState with esp32Socket := none }

/-- A state where socket 0 identified as the device, then socket 1 identified
and took the slot, and socket 0 is still open and registered (the state after
`esp32-identify` from 0 followed by `esp32-identify` from 1, plus a dashboard
socket 2). -/
def staleDeviceState : ServerState :=
  { clients := [0, 1, 2]
    isEsp32 := fun i => decide (i = 0) || decide (i = 1)
    readyState := fun _ => ReadyState.OPEN
    esp32Socket := some 1
    store := []
    dbConnected := true
    now := 0 }

/-- A state whose DeviceSlot holds socket 0 but socket 0's transport has
closed (the stale-reference situation the `command` handler self-heals). -/
def staleClosedState : ServerState :=
  { clients := [1]
    isEsp32 := fun i => decide (i = 0)
    readyState := fun i => if i = 0 then ReadyState.CLOSED else ReadyState.OPEN
    esp32Socket := some 0
    store := []
    dbConnected := true
    now := 0 }

/-! ### Claims -/

/-- C1: a `command` arriving while the DeviceSlot is empty is answered, in
both variants, with exactly the typed error
`{type: error, message: "Device Offline (No Socket)."}` to the sender; the
state is unchanged and no other send (no broadcast, no forward) happens. -/
theorem command_device_offline (s : ServerState) (sender : Nat) (c : String)
    (v : Int) (dbFail : Bool) (h : s.esp32Socket = none) :
    handleMessage s sender (some (.command c v)) dbFail
      = (s, [(sender, .error "Device Offline (No Socket).")]) ∧
    handleMessageBackup s sender (some (.command c v)) dbFail
      = (s, [(sender, .error "Device Offline (No Socket).")]) := by
  constructor <;> simp [handleMessage, handleMessageBackup, h]

theorem command_device_offline_witness :
    noDeviceState.esp32Socket = none ∧
    (handleMessage noDeviceState 1 (some (.command "pump" 1)) false
       = (noDeviceState, [(1, .error "Device Offline (No Socket).")]) ∧
     handleMessageBackup noDeviceState 1 (some (.command "pump" 1)) false
       = (noDeviceState, [(1, .error "Device Offline (No Socket).")])) :=
  ⟨rfl, command_device_offline noDeviceState 1 "pump" 1 false rfl⟩

/-- C2: a `command` arriving while the DeviceSlot holds a socket whose
transport state is not `OPEN` is answered, in both variants, with the typed
error "Device Disconnected (Socket Closed)." to the sender, and the
DeviceSlot is cleared, so `get_device` returns empty immediately after. -/
theorem command_device_disconnected (s : ServerState) (sender dev : Nat)
    (c : String) (v : Int) (dbFail : Bool) (h : s.esp32Socket = some dev)
    (hnot : s.readyState dev ≠ ReadyState.OPEN) :
    (handleMessage s sender (some (.command c v)) dbFail
       = ({ s with esp32Socket := none },
          [(sender, .error "Device Disconnected (Socket Closed).")]) ∧
     get_device (handleMessage s sender (some (.command c v)) dbFail).1 = none) ∧
    (handleMessageBackup s sender (some (.command c v)) dbFail
       = ({ s with esp32Socket := none },
          [(sender, .error "Device Disconnected (Socket Closed).")]) ∧
     get_device (handleMessageBackup s sender (some (.command c v)) dbFail).1
       = none) := by
  refine ⟨⟨?_, ?_⟩, ?_, ?_⟩ <;>
    simp [handleMessage, handleMessageBackup, get_device, h, hnot]

theorem command_device_disconnected_witness :
    staleClosedState.esp32Socket = some 0 ∧
    staleClosedState.readyState 0 ≠ ReadyState.OPEN ∧
    ((handleMessage staleClosedState 1 (some (.command "pump" 0)) false
        = ({ staleClosedState with esp32Socket := none },
           [(1, .error "Device Disconnected (Socket Closed).")]) ∧
      get_device (handleMessage staleClosedState 1
          (some (.command "pump" 0)) false).1 = none) ∧
     (handleMessageBackup staleClosedState 1 (some (.command "pump" 0)) false
        = ({ staleClosedState with esp32Socket := none },
           [(1, .error "Device Disconnected (Socket Closed).")]) ∧
      get_device (handleMessageBackup staleClosedState 1
          (some (.command "pump" 0)) false).1 = none)) :=
  ⟨rfl, by decide,
   command_device_disconnected staleClosedState 1 0 "pump" 0 false rfl (by decide)⟩

/-- C8: a frame that `JSON.parse` rejects produces no reply and no state
change in either variant (slot, registry, store all untouched, the sender not
terminated), and a subsequent valid message from the same point is handled
exactly as if the malformed frame had never arrived. -/
theorem malformed_frame_noop (s : ServerState) (sender sender' : Nat)
    (dbFail dbFail' : Bool) (m : Option InMsg) :
    handleMessage s sender none dbFail = (s, []) ∧
    handleMessageBackup s sender none dbFail = (s, []) ∧
    handleMessage (handleMessage s sender none dbFail).1 sender' m dbFail'
      = handleMessage s sender' m dbFail' ∧
    handleMessageBackup (handleMessageBackup s sender none dbFail).1 sender' m
        dbFail'
      = handleMessageBackup s sender' m dbFail' :=
  ⟨rfl, rfl, rfl, rfl⟩

/-- C3 counterexample: in `staleDeviceState` the DeviceSlot is held by
socket 1, yet the close of socket 0 — a DIFFERENT connection, one that merely
identified earlier and was since replaced — clears the slot, because the
close handler tests the sticky `isEsp32` flag, not slot identity. The claim's
"cleared only if the closer is the current occupant" fails here. -/
theorem close_clears_slot_counterexample :
    staleDeviceState.esp32Socket = some 1 ∧ (0 : Nat) ≠ 1 ∧
    (handleClose staleDeviceState 0).esp32Socket = none := by
  refine ⟨rfl, by decide, rfl⟩

/-- C3 amended: on a connection-close event the DeviceSlot is cleared iff the
closing connection carries the `isEsp32` flag (i.e. has ever identified as the
device) or the slot was already empty; when a never-identified connection
closes, the slot is left unchanged. In particular the current occupant's close
clears it, but so does the close of any previously replaced device
connection. -/
theorem close_clears_slot_iff_flagged (s : ServerState) (who : Nat) :
    ((handleClose s who).esp32Socket = none ↔
      s.isEsp32 who = true ∨ s.esp32Socket = none) ∧
    (s.isEsp32 who = false →
      (handleClose s who).esp32Socket = s.esp32Socket) := by
  unfold handleClose
  by_cases h : s.isEsp32 who <;> simp [h]

theorem close_clears_slot_iff_flagged_witness :
    demoState.isEsp32 2 = false ∧
    (handleClose demoState 2).esp32Socket = demoState.esp32Socket :=
  ⟨rfl, (close_clears_slot_iff_flagged demoState 2).2 rfl⟩

/-- C4 counterexample: in `staleDeviceState`, socket 1 currently holds device
identity and sends a `statusUpdate`; socket 0 is another registered, open
connection, yet it receives nothing (the broadcast predicate excludes every
connection with the sticky `isEsp32` flag, not just the device itself): the
whole output is one send to socket 2. -/
theorem statusUpdate_broadcast_counterexample :
    staleDeviceState.esp32Socket = some 1 ∧
    0 ∈ staleDeviceState.clients ∧
    staleDeviceState.readyState 0 = ReadyState.OPEN ∧
    (0, OutMsg.statusUpdate "p") ∉
      (handleMessage staleDeviceState 1 (some (.statusUpdate "p")) false).2 ∧
    (handleMessage staleDeviceState 1 (some (.statusUpdate "p")) false).2
      = [(2, OutMsg.statusUpdate "p")] := by
  refine ⟨rfl, by decide, rfl, by decide, by decide⟩

/-- C4 amended: a `statusUpdate` from a sender carrying the device flag is
delivered exactly to the registered, currently `OPEN` connections whose
`isEsp32` flag is unset — i.e. to every other open dashboard connection, but
not to ANY flagged connection (in particular never echoed to the sender
itself, and also not to a previously replaced device connection). -/
theorem statusUpdate_broadcast_amended (s : ServerState) (sender : Nat)
    (p : String) (dbFail : Bool) (hdev : s.isEsp32 sender = true) :
    (∀ c, (c, OutMsg.statusUpdate p) ∈
        (handleMessage s sender (some (.statusUpdate p)) dbFail).2 ↔
      (c ∈ s.clients ∧ s.isEsp32 c = false ∧ s.readyState c = ReadyState.OPEN)) ∧
    (sender, OutMsg.statusUpdate p) ∉
      (handleMessage s sender (some (.statusUpdate p)) dbFail).2 := by
  have hchar : ∀ c, (c, OutMsg.statusUpdate p) ∈
      (handleMessage s sender (some (.statusUpdate p)) dbFail).2 ↔
      (c ∈ s.clients ∧ s.isEsp32 c = false ∧
        s.readyState c = ReadyState.OPEN) := by
    intro c
    simp only [handleMessage, hdev, if_true, List.mem_filterMap]
    constructor
    · rintro ⟨a, ha, hf⟩
      by_cases hc : s.isEsp32 a = false ∧ s.readyState a = ReadyState.OPEN
      · rw [if_pos hc] at hf
        obtain ⟨rfl, -⟩ : a = c ∧ _ := by
          injection hf with hf'
          injection hf' with h1 h2
          exact ⟨h1, trivial⟩
        exact ⟨ha, hc.1, hc.2⟩
      · rw [if_neg hc] at hf
        exact absurd hf (Option.noConfusion)
    · rintro ⟨hc, hflag, hopen⟩
      exact ⟨c, hc, by rw [if_pos ⟨hflag, hopen⟩]⟩
  refine ⟨hchar, fun hmem => ?_⟩
  have := (hchar sender).mp hmem
  rw [hdev] at this
  exact Bool.noConfusion this.2.1

theorem statusUpdate_broadcast_amended_witness :
    staleDeviceState.isEsp32 1 = true ∧
    ((2, OutMsg.statusUpdate "p") ∈
        (handleMessage staleDeviceState 1 (some (.statusUpdate "p")) false).2 ↔
      (2 ∈ staleDeviceState.clients ∧ staleDeviceState.isEsp32 2 = false ∧
        staleDeviceState.readyState 2 = ReadyState.OPEN)) ∧
    (1, OutMsg.statusUpdate "p") ∉
      (handleMessage staleDeviceState 1 (some (.statusUpdate "p")) false).2 :=
  ⟨rfl,
   (statusUpdate_broadcast_amended staleDeviceState 1 "p" false rfl).1 2,
   (statusUpdate_broadcast_amended staleDeviceState 1 "p" false rfl).2⟩

/-- C5 counterexample: in the main variant, with the store connected, a
`getLogs` whose store query throws is answered with NO send at all (the
`catch` only writes to the server console), and likewise a failing
`clearLogs`; the failure IS swallowed with no reply to the requester. -/
theorem store_failure_reply_counterexample :
    demoState.dbConnected = true ∧
    handleMessage demoState 1 (some (.getLogs none none)) true
      = (demoState, []) ∧
    handleMessage demoState 1 (some (.clearLogs none none)) true
      = (demoState, []) :=
  ⟨rfl, rfl, rfl⟩

/-- C5 amended: only the backup (strict) variant surfaces store failures to
the requester — a failing `getLogs` query is answered with the typed error
"Database Error. Check Server Logs." and a failing `deleteLogs`/`clearLogs`
with "Delete Failed." — while the main variant logs the failure to its own
diagnostics only and sends no reply. -/
theorem store_failure_reply_amended (s : ServerState) (sender sd ed : Nat)
    (sdo edo : Option Nat) (h : s.dbConnected = true) :
    (handleMessageBackup s sender (some (.getLogs (some sd) (some ed))) true).2
      = [(sender, .error "Database Error. Check Server Logs.")] ∧
    (handleMessageBackup s sender (some (.deleteLogs sdo edo)) true).2
      = [(sender, .error "Delete Failed.")] ∧
    (handleMessageBackup s sender (some (.clearLogs sdo edo)) true).2
      = [(sender, .error "Delete Failed.")] ∧
    (handleMessage s sender (some (.getLogs sdo edo)) true).2 = [] ∧
    (handleMessage s sender (some (.clearLogs sdo edo)) true).2 = [] := by
  refine ⟨?_, ?_, ?_, ?_, ?_⟩ <;>
    simp [handleMessage, handleMessageBackup, h]

theorem store_failure_reply_amended_witness :
    demoState.dbConnected = true ∧
    ((handleMessageBackup demoState 1
        (some (.getLogs (some 19723) (some 19723))) true).2
      = [(1, .error "Database Error. Check Server Logs.")] ∧
     (handleMessageBackup demoState 1 (some (.deleteLogs none none)) true).2
      = [(1, .error "Delete Failed.")] ∧
     (handleMessageBackup demoState 1 (some (.clearLogs none none)) true).2
      = [(1, .error "Delete Failed.")] ∧
     (handleMessage demoState 1 (some (.getLogs none none)) true).2 = [] ∧
     (handleMessage demoState 1 (some (.clearLogs none none)) true).2 = []) :=
  ⟨rfl, store_failure_reply_amended demoState 1 19723 19723 none none rfl⟩

/-- C6: the `serverTime` query the `getLogs` handlers build selects exactly
the entries with `startDate 00:00 UTC ≤ t` (when `startDate` is present) and
`t < 00:00 UTC of the day after endDate` (when `endDate` is present); in
particular `startDate = endDate = 2024-01-01` (day index 19723) selects
exactly `[2024-01-01T00:00:00Z, 2024-01-02T00:00:00Z)` in epoch
milliseconds. -/
theorem getLogs_date_range (sd ed : Option Nat) (e : LogEntry) :
    (queryMatches (buildGetLogsQuery sd ed) e = true ↔
      ((∀ d, sd = some d → dayStartMs d ≤ e.serverTime) ∧
       (∀ d, ed = some d → e.serverTime < dayStartMs (d + 1)))) ∧
    (queryMatches (buildGetLogsQuery (some 19723) (some 19723)) e = true ↔
      (1704067200000 ≤ e.serverTime ∧ e.serverTime < 1704153600000)) := by
  constructor
  · cases sd <;> cases ed <;>
      simp [buildGetLogsQuery, queryMatches, dayStartMs]
  · simp [buildGetLogsQuery, queryMatches, dayStartMs]

/-- Helper for C7: the store query result is capped at 100 entries. -/
theorem findLogs_length_le (store : List LogEntry) (q : Option TimeRange) :
    (findLogs store q).length ≤ 100 := by
  simp [findLogs]

/-- Helper for C7: the store query result is sorted most-recent-first. -/
theorem findLogs_sorted (store : List LogEntry) (q : Option TimeRange) :
    List.Sorted recentFirst (findLogs store q) :=
  (List.sorted_insertionSort recentFirst
    (store.filter (queryMatches q))).sublist (List.take_sublist 100 _)

/-- C7: every `logHistory` reply a `getLogs` request produces, in either
variant, carries at most 100 entries, sorted descending by server-assigned
timestamp. -/
theorem getLogs_capped_sorted (s : ServerState) (sender : Nat)
    (sd ed : Option Nat) (dbFail : Bool) (c : Nat) (l : List LogEntry)
    (h : (c, OutMsg.logHistory l) ∈
        (handleMessage s sender (some (.getLogs sd ed)) dbFail).2 ∨
      (c, OutMsg.logHistory l) ∈
        (handleMessageBackup s sender (some (.getLogs sd ed)) dbFail).2) :
    l.length ≤ 100 ∧ List.Sorted recentFirst l := by
  have hfind : ∀ q, l = findLogs s.store q →
      l.length ≤ 100 ∧ List.Sorted recentFirst l := by
    rintro q rfl
    exact ⟨findLogs_length_le _ _, findLogs_sorted _ _⟩
  have hnil : l = [] → l.length ≤ 100 ∧ List.Sorted recentFirst l := by
    rintro rfl
    exact ⟨by simp, List.sorted_nil⟩
  rcases h with h | h
  · simp only [handleMessage] at h
    split at h
    · split at h
      · simp at h
      · simp at h
        exact hfind _ h.2
    · simp at h
      exact hnil h.2
  · simp only [handleMessageBackup] at h
    rcases sd with - | sd' <;> rcases ed with - | ed' <;> simp at h
    split at h
    · split at h
      · simp at h
      · simp at h
        exact hfind _ h.2
    · simp at h
      exact hnil h.2

theorem getLogs_capped_sorted_witness :
    ((1, OutMsg.logHistory []) ∈
        (handleMessage demoState 1 (some (.getLogs none none)) false).2 ∨
      (1, OutMsg.logHistory []) ∈
        (handleMessageBackup demoState 1 (some (.getLogs none none)) false).2) ∧
    (([] : List LogEntry).length ≤ 100 ∧
      List.Sorted recentFirst ([] : List LogEntry)) :=
  ⟨Or.inl (by simp [handleMessage, demoState, findLogs]),
   getLogs_capped_sorted demoState 1 none none false 1 []
     (Or.inl (by simp [handleMessage, demoState, findLogs]))⟩

/-- C9: the per-connection `isEsp32` flag is never cleared once set: it
survives every message handled (in either variant) and every close event.
Consequently a connection that identified earlier — even after a different
connection later took the DeviceSlot — still satisfies the is-device
predicate, so it never receives any `statusUpdate` broadcast, and a
`statusUpdate` it sends itself is still broadcast to every registered, open,
unflagged (dashboard) connection. -/
theorem device_flag_sticky (s : ServerState) (i sender : Nat)
    (m : Option InMsg) (dbFail : Bool) (p : String)
    (hflag : s.isEsp32 i = true) :
    ((handleMessage s sender m dbFail).1.isEsp32 i = true ∧
     (handleMessageBackup s sender m dbFail).1.isEsp32 i = true ∧
     (handleClose s sender).isEsp32 i = true) ∧
    ((i, OutMsg.statusUpdate p) ∉
        (handleMessage s sender (some (.statusUpdate p)) dbFail).2 ∧
     (i, OutMsg.statusUpdate p) ∉
        (handleMessageBackup s sender (some (.statusUpdate p)) dbFail).2) ∧
    (∀ c, c ∈ s.clients → s.isEsp32 c = false →
      s.readyState c = ReadyState.OPEN →
      ((c, OutMsg.statusUpdate p) ∈
          (handleMessage s i (some (.statusUpdate p)) dbFail).2 ∧
       (c, OutMsg.statusUpdate p) ∈
          (handleMessageBackup s i (some (.statusUpdate p)) dbFail).2)) := by
  have hbcast : ∀ L : List Nat, (i, OutMsg.statusUpdate p) ∉
      L.filterMap (fun c =>
        if s.isEsp32 c = false ∧ s.readyState c = ReadyState.OPEN
        then some (c, OutMsg.statusUpdate p) else none) := by
    intro L hm
    rw [List.mem_filterMap] at hm
    obtain ⟨a, -, hf⟩ := hm
    by_cases hc : s.isEsp32 a = false ∧ s.readyState a = ReadyState.OPEN
    · rw [if_pos hc] at hf
      injection hf with hf'
      injection hf' with h1 h2
      rw [h1] at hc
      rw [hflag] at hc
      exact Bool.noConfusion hc.1
    · rw [if_neg hc] at hf
      exact Option.noConfusion hf
  refine ⟨⟨?_, ?_, ?_⟩, ⟨?_, ?_⟩, ?_⟩
  · rcases m with - | d
    · exact hflag
    · cases d <;> simp only [handleMessage] <;>
        first
        | exact hflag
        | (split <;> try split) <;>
          first
          | exact hflag
          | (by_cases hi : i = sender <;> simp [hi, hflag])
  · rcases m with - | d
    · exact hflag
    · cases d <;> simp only [handleMessageBackup] <;>
        first
        | exact hflag
        | (split <;> try split) <;>
          first
          | exact hflag
          | (by_cases hi : i = sender <;> simp [hi, hflag])
          | (split <;> simp [hflag])
  · by_cases hs : s.isEsp32 sender = true <;> simp [handleClose, hs, hflag]
  · simp only [handleMessage]
    split
    · exact hbcast s.clients
    · simp
  · simp only [handleMessageBackup]
    split
    · exact hbcast s.clients
    · simp
  · intro c hc hflagc hopen
    constructor <;> simp only [handleMessage, handleMessageBackup, hflag,
        if_true, List.mem_filterMap] <;>
      exact ⟨c, hc, by rw [if_pos ⟨hflagc, hopen⟩]⟩

theorem device_flag_sticky_witness :
    staleDeviceState.isEsp32 0 = true ∧
    (((handleMessage staleDeviceState 1 (some .identify) false).1.isEsp32 0
        = true ∧
      (handleMessageBackup staleDeviceState 1 (some .identify) false).1.isEsp32
          0 = true ∧
      (handleClose staleDeviceState 1).isEsp32 0 = true) ∧
     ((0, OutMsg.statusUpdate "p") ∉
        (handleMessage staleDeviceState 1 (some (.statusUpdate "p")) false).2 ∧
      (0, OutMsg.statusUpdate "p") ∉
        (handleMessageBackup staleDeviceState 1
          (some (.statusUpdate "p")) false).2) ∧
     (∀ c, c ∈ staleDeviceState.clients → staleDeviceState.isEsp32 c = false →
       staleDeviceState.readyState c = ReadyState.OPEN →
       ((c, OutMsg.statusUpdate "p") ∈
          (handleMessage staleDeviceState 0
            (some (.statusUpdate "p")) false).2 ∧
        (c, OutMsg.statusUpdate "p") ∈
          (handleMessageBackup staleDeviceState 0
            (some (.statusUpdate "p")) false).2))) :=
  ⟨rfl, device_flag_sticky staleDeviceState 0 1 (some .identify) false "p" rfl⟩

/-- C10: in the backup (strict) variant, a `deleteLogs`/`clearLogs` request
carrying exactly one of the two dates builds the empty match `{}` — the
handler behaves EXACTLY as with no range at all (same replies, same state),
and when the store is connected and the delete succeeds the whole collection
is emptied. -/
theorem deleteLogs_single_bound_full_clear (s : ServerState) (sender d : Nat)
    (dbFail : Bool) :
    (handleMessageBackup s sender (some (.deleteLogs (some d) none)) dbFail
       = handleMessageBackup s sender (some (.deleteLogs none none)) dbFail ∧
     handleMessageBackup s sender (some (.deleteLogs none (some d))) dbFail
       = handleMessageBackup s sender (some (.deleteLogs none none)) dbFail ∧
     handleMessageBackup s sender (some (.clearLogs (some d) none)) dbFail
       = handleMessageBackup s sender (some (.clearLogs none none)) dbFail ∧
     handleMessageBackup s sender (some (.clearLogs none (some d))) dbFail
       = handleMessageBackup s sender (some (.clearLogs none none)) dbFail) ∧
    (s.dbConnected = true → dbFail = false →
      (handleMessageBackup s sender
          (some (.deleteLogs (some d) none)) dbFail).1.store = [] ∧
      (handleMessageBackup s sender
          (some (.deleteLogs none (some d))) dbFail).1.store = []) := by
  refine ⟨⟨rfl, rfl, rfl, rfl⟩, fun hdb hfail => ?_⟩
  subst hfail
  constructor <;> simp [handleMessageBackup, buildDeleteMatch, hdb, queryMatches]

theorem deleteLogs_single_bound_full_clear_witness :
    demoState.dbConnected = true ∧
    (handleMessageBackup demoState 1
        (some (.deleteLogs (some 19723) none)) false).1.store = [] ∧
    (handleMessageBackup demoState 1
        (some (.deleteLogs none (some 19723))) false).1.store = [] :=
  ⟨rfl, (deleteLogs_single_bound_full_clear demoState 1 19723 false).2 rfl rfl⟩

end Pump
